import Mathlib

/-!
Shallow embedding of the fuel-prices frontend core
(src/frontend/src/js/main.js and src/frontend/src/js/enums.js).

JS numbers are modelled as exact rationals; `undefined` values arising from
`Array.prototype.find` misses and optional chaining are modelled as `Option`;
a JS `TypeError` thrown by dereferencing `undefined` is modelled by an
`Option.none` result of the whole operation.
-/

namespace FuelPrices

/-- Metadata attached to a fuel type in the registry (enums.js).  A missing
`defaultUnselected` property in the JS object is falsy, modelled by the
default value `false`. -/
structure FuelTypeMeta where
  label : String
  borderColor : String
  defaultUnselected : Bool := false
deriving DecidableEq, Repr

/-- The fuel-type registry, in declaration order (enums.js, `FuelType`).
`Object.keys` enumerates a JS object's string keys in insertion order, so the
registry is an ordered association list. -/
def FuelType : List (String × FuelTypeMeta) :=
  [("UNLEADED_95", { label := "Αμόλυβδη 95", borderColor := "rgb(64, 83, 211)" }),
   ("UNLEADED_100", { label := "Αμόλυβδη 100", borderColor := "rgb(211, 179, 16)" }),
   ("GAS", { label := "Υγραέριο", borderColor := "rgb(181, 29, 20)" }),
   ("DIESEL", { label := "Diesel", borderColor := "rgb(0, 190, 255)" }),
   ("DIESEL_HEATING", { label := "Diesel Θέρμανσης", borderColor := "rgb(251, 73, 176)" }),
   ("SUPER", { label := "Super", borderColor := "rgb(202, 202, 202)", defaultUnselected := true })]

/-- The keys of the fuel-type registry in declaration order
(`Object.keys(FuelType)` in main.js). -/
def fuelTypeKeys : List String := FuelType.map (·.1)

/-- The prefecture registry (enums.js, `Prefecture`): canonical region
identifier to Greek display label, in declaration order. -/
def Prefecture : List (String × String) :=
  [("ATTICA", "ΑΤΤΙΚΗΣ"),
   ("AETOLIA_ACARNANIA", "ΑΙΤΩΛΙΑΣ ΚΑΙ ΑΚΑΡΝΑΝΙΑΣ"),
   ("ARGOLIS", "ΑΡΓΟΛΙΔΟΣ"),
   ("ARKADIAS", "ΑΡΚΑΔΙΑΣ"),
   ("ARTA", "ΑΡΤΗΣ"),
   ("ACHAEA", "ΑΧΑΪΑΣ"),
   ("BOEOTIA", "ΒΟΙΩΤΙΑΣ"),
   ("GREVENA", "ΓΡΕΒΕΝΩΝ"),
   ("DRAMA", "ΔΡΑΜΑΣ"),
   ("DODECANESE", "ΔΩΔΕΚΑΝΗΣΟΥ"),
   ("EVROS", "ΕΒΡΟΥ"),
   ("EUBOEA", "ΕΥΒΟΙΑΣ"),
   ("EVRYTANIA", "ΕΥΡΥΤΑΝΙΑΣ"),
   ("ZAKYNTHOS", "ΖΑΚΥΝΘΟΥ"),
   ("ELIS", "ΗΛΕΙΑΣ"),
   ("IMATHIA", "ΗΜΑΘΙΑΣ"),
   ("HERAKLION", "ΗΡΑΚΛΕΙΟΥ"),
   ("THESPROTIA", "ΘΕΣΠΡΩΤΙΑΣ"),
   ("THESSALONIKI", "ΘΕΣΣΑΛΟΝΙΚΗΣ"),
   ("IOANNINA", "ΙΩΑΝΝΙΝΩΝ"),
   ("KAVALA", "ΚΑΒΑΛΑΣ"),
   ("KARDITSA", "ΚΑΡΔΙΤΣΗΣ"),
   ("KASTORIA", "ΚΑΣΤΟΡΙΑΣ"),
   ("KERKYRA", "ΚΕΡΚΥΡΑΣ"),
   ("CEPHALONIA", "ΚΕΦΑΛΛΗΝΙΑΣ"),
   ("KILKIS", "ΚΙΛΚΙΣ"),
   ("KOZANI", "ΚΟΖΑΝΗΣ"),
   ("CORINTHIA", "ΚΟΡΙΝΘΙΑΣ"),
   ("CYCLADES", "ΚΥΚΛΑΔΩΝ"),
   ("LACONIA", "ΛΑΚΩΝΙΑΣ"),
   ("LARISSA", "ΛΑΡΙΣΗΣ"),
   ("LASITHI", "ΛΑΣΙΘΙΟΥ"),
   ("LESBOS", "ΛΕΣΒΟΥ"),
   ("LEFKADA", "ΛΕΥΚΑΔΟΣ"),
   ("MAGNESIA", "ΜΑΓΝΗΣΙΑΣ"),
   ("MESSENIA", "ΜΕΣΣΗΝΙΑΣ"),
   ("XANTHI", "ΞΑΝΘΗΣ"),
   ("PELLA", "ΠΕΛΛΗΣ"),
   ("PIERIA", "ΠΙΕΡΙΑΣ"),
   ("PREVEZA", "ΠΡΕΒΕΖΗΣ"),
   ("RETHYMNO", "ΡΕΘΥΜΝΗΣ"),
   ("RHODOPE", "ΡΟΔΟΠΗΣ"),
   ("SAMOS", "ΣΑΜΟΥ"),
   ("SERRES", "ΣΕΡΡΩΝ"),
   ("TRIKALA", "ΤΡΙΚΑΛΩΝ"),
   ("PHTHIOTIS", "ΦΘΙΩΤΙΔΟΣ"),
   ("FLORINA", "ΦΛΩΡΙΝΗΣ"),
   ("PHOCIS", "ΦΩΚΙΔΟΣ"),
   ("CHALKIDIKI", "ΧΑΛΚΙΔΙΚΗΣ"),
   ("CHANIA", "ΧΑΝΙΩΝ"),
   ("CHIOS", "ΧΙΟΥ")]

/-- The keys of the prefecture registry (`Object.keys(Prefecture)` in
main.js). -/
def prefectureKeys : List String := Prefecture.map (·.1)

/-- One observation of the daily-country payload: an entry of a record's
`data` array, `\x7b fuel_type: string, price: number \x7d` (main.js reads
exactly these two fields). -/
structure Obs where
  fuel_type : String
  price : ℚ
deriving DecidableEq, Repr

/-- One record of the daily-country payload: `\x7b date: ISO string,
data: array of observations \x7d`. -/
structure DataRow where
  date : String
  data : List Obs
deriving DecidableEq, Repr

/-- One per-prefecture entry of the country payload. -/
structure PrefEntry where
  prefecture : String
  data : List Obs
deriving DecidableEq, Repr

/-- The country payload: a country-level aggregate list and a list of
per-prefecture records (API schema; main.js stores it as `countryData`). -/
structure CountryData where
  country : List Obs
  prefectures : List PrefEntry
deriving DecidableEq, Repr

/-- Exact-rational model of JS `Number.prototype.toFixed(3)`: round to the
nearest thousandth (`round` is Mathlib's round-half-up) and print with
exactly three decimal digits. -/
def toFixed3 (q : ℚ) : String :=
  let n : ℤ := round (q * 1000)
  let sgn := if n < 0 then "-" else ""
  let m := n.natAbs
  sgn ++ toString (m / 1000) ++ "." ++
    (if m % 1000 < 10 then "00" else if m % 1000 < 100 then "0" else "") ++ toString (m % 1000)

/-- Exact-rational model of JS `Number.prototype.toFixed(2)`. -/
def toFixed2 (q : ℚ) : String :=
  let n : ℤ := round (q * 100)
  let sgn := if n < 0 then "-" else ""
  let m := n.natAbs
  sgn ++ toString (m / 100) ++ "." ++
    (if m % 100 < 10 then "0" else "") ++ toString (m % 100)

/-- `formatPrice` (main.js:20-26): a truthy price renders with three decimals
and a euro sign, a missing (`undefined`) or zero price renders as a dash.
The argument is an `Option` because call sites pass `fuelData?.price`. -/
def formatPrice (price : Option ℚ) : String :=
  match price with
  | some p => if p ≠ 0 then toFixed3 p ++ "€" else "-"
  | none => "-"

/-- The observable content of the span element built by `formatEvolution`:
its CSS class list and its inner HTML text. -/
structure SpanElem where
  classes : List String
  innerHTML : String
deriving DecidableEq, Repr

/-- `formatEvolution` (main.js:35-51).  The JS guard `value && previousValue`
is number truthiness: both sides present and nonzero.  Inside the guard the
code computes `evolutionValue = (value - previousValue) / value`, adds class
`text-danger` when positive and `text-success` when negative, and renders the
percentage with `toFixed(2)`, a leading `+` when positive, and a `%`
suffix; otherwise it renders a dash with no class. -/
def formatEvolution (value previousValue : Option ℚ) : SpanElem :=
  match value, previousValue with
  | some v, some p =>
    if v ≠ 0 ∧ p ≠ 0 then
      let evolutionValue := (v - p) / v
      { classes :=
          if evolutionValue > 0 then ["text-danger"]
          else if evolutionValue < 0 then ["text-success"] else [],
        innerHTML :=
          (if evolutionValue > 0 then "+" else "") ++ toFixed2 (evolutionValue * 100) ++ "%" }
    else { classes := [], innerHTML := "-" }
  | _, _ => { classes := [], innerHTML := "-" }

/-- The four evolution directions of the spec's `EvolutionResult`; in the
rendered span, `up` is the `text-danger` class, `down` is `text-success`,
`flat` is a class-free numeric rendering and `unknown` is the dash. -/
inductive Direction where
  | up
  | down
  | flat
  | unknown
deriving DecidableEq, Repr

/-- Direction of the evolution computation, read off the branch structure of
`formatEvolution` (main.js:37-48): same guard, then the sign of
`(value - previousValue) / value`. -/
def evolutionDirection (value previousValue : Option ℚ) : Direction :=
  match value, previousValue with
  | some v, some p =>
    if v ≠ 0 ∧ p ≠ 0 then
      let evolutionValue := (v - p) / v
      if evolutionValue > 0 then .up
      else if evolutionValue < 0 then .down
      else .flat
    else .unknown
  | _, _ => .unknown

/-- Percent of the evolution computation, read off the same branch structure
of `formatEvolution` (main.js:37-48): the exact value whose rendering the
span carries, `none` on the dash branch (no division is performed there). -/
def evolutionPercent (value previousValue : Option ℚ) : Option ℚ :=
  match value, previousValue with
  | some v, some p => if v ≠ 0 ∧ p ≠ 0 then some ((v - p) / v) else none
  | _, _ => none

/-- The state of one fuel-type checkbox of the selector: the `disabled` and
`checked` DOM properties.  `disabled = false` is the spec's `enabled`,
`checked` is the spec's `selected`. -/
structure SelState where
  disabled : Bool
  checked : Bool
deriving DecidableEq, Repr

/-- The checkbox state built by the fuel-type selector setup
(`initializeFuelTypeSelector`, main.js:97-119): for every registry fuel type
a checkbox is created with `checked = !FuelType[fuelType].defaultUnselected`;
a freshly created input element is not disabled. -/
def initFuelTypeSelector : String → SelState :=
  fun ft =>
    match FuelType.find? (fun p => p.1 = ft) with
    | some p => { disabled := false, checked := !p.2.defaultUnselected }
    | none => { disabled := false, checked := false }

/-- Whether some record of the series carries an observation for the given
fuel-type key: membership in the `fuelTypes` set built by
`loadFuelTypesSelector` (main.js:254-259). -/
def seriesHasFuelType (d : List DataRow) (ft : String) : Bool :=
  d.any (fun row => row.data.any (fun e => e.fuel_type = ft))

/-- `loadFuelTypesSelector` (main.js:252-271): for every registry fuel type,
if the loaded series carries it somewhere the checkbox is re-enabled (its
`checked` value untouched), otherwise it is disabled and unchecked.
Checkboxes outside the registry do not exist, so other keys are unchanged. -/
def loadFuelTypesSelector (d : List DataRow) (sel : String → SelState) : String → SelState :=
  fun ft =>
    if ft ∈ fuelTypeKeys then
      if seriesHasFuelType d ft then { disabled := false, checked := (sel ft).checked }
      else { disabled := true, checked := false }
    else sel ft

/-- A user click on the fuel-type checkbox of `ft`.  Per the HTML semantics
the code relies on (main.js:265-268 sets the `disabled` DOM property), a
disabled checkbox ignores activation entirely; an enabled one flips its
`checked` property. -/
def toggleFuelType (sel : String → SelState) (ft : String) : String → SelState :=
  fun g =>
    if g = ft ∧ (sel ft).disabled = false then { sel g with checked := !(sel g).checked }
    else sel g

/-- The dense value column built for one fuel type by
`loadDailyCountryDataChart` (main.js:295-299): for each record, in input
order, `row.data.find(e => e.fuel_type === fuelType)?.price` — the price of
the matching observation, or absent. -/
def alignedColumn (d : List DataRow) (ft : String) : List (Option ℚ) :=
  d.map (fun row => (row.data.find? (fun e => e.fuel_type = ft)).map (·.price))

/-- One chart dataset (main.js:300-305). -/
structure Dataset where
  label : String
  borderColor : String
  hidden : Bool
  dataSeq : List (Option ℚ)
deriving DecidableEq, Repr

/-- The chart data object assigned by `loadDailyCountryDataChart`
(main.js:307-310). -/
structure ChartData where
  labels : List String
  datasets : List Dataset
deriving DecidableEq, Repr

/-- `loadDailyCountryDataChart` (main.js:291-311): one dataset per registry
fuel type in registry order, each carrying the aligned value column, labelled
and coloured from the registry, hidden when the selector checkbox is not
checked; the label axis is the record dates in input order. -/
def loadDailyCountryDataChart (d : List DataRow) (sel : String → SelState) : ChartData :=
  { labels := d.map (·.date),
    datasets := FuelType.map (fun p =>
      { label := p.2.label,
        borderColor := p.2.borderColor,
        hidden := !(sel p.1).checked,
        dataSeq := alignedColumn d p.1 }) }

/-- JS `Array.prototype.at` for possibly negative indices
(main.js:277-278 uses `at(-1)` and `at(-2)`). -/
def atIdx (l : List α) (i : ℤ) : Option α :=
  let j : ℤ := if i < 0 then (l.length : ℤ) + i else i
  if 0 ≤ j then l.get? j.toNat else none

/-- One rendered row of the latest-prices table: the formatted price cell and
the evolution span for one fuel type. -/
structure LatestRow where
  fuelType : String
  priceCell : String
  evolutionCell : SpanElem
deriving DecidableEq, Repr

/-- `loadLatestCountryDataTable` (main.js:276-286): takes the last and the
second-to-last records, and fills one row per registry fuel type.  The code
dereferences `latestData.data` without optional chaining, so on an empty
series (`at(-1)` is `undefined`) it throws a `TypeError`: modelled as `none`
(the registry is nonempty, so the loop body always runs).  The previous
record is accessed through optional chaining and may be missing. -/
def loadLatestCountryDataTable (d : List DataRow) : Option (List LatestRow) :=
  match atIdx d (-1) with
  | none => none
  | some latestData =>
    let previousData := atIdx d (-2)
    some (FuelType.map (fun p =>
      let fuelData := latestData.data.find? (fun e => e.fuel_type = p.1)
      { fuelType := p.1,
        priceCell := formatPrice (fuelData.map (·.price)),
        evolutionCell := formatEvolution (fuelData.map (·.price))
          ((previousData.bind (fun prev => prev.data.find? (fun e => e.fuel_type = p.1))).map
            (·.price)) }))

/-- The cells of one prefecture row (main.js:321-324): for every registry
fuel type in registry order, the formatted price of the prefecture's matching
observation (a dash when the prefecture reports no such fuel type). -/
def prefectureCells (pd : List Obs) : List (String × String) :=
  FuelType.map (fun p =>
    (p.1, formatPrice ((pd.find? (fun e => e.fuel_type = p.1)).map (·.price))))

/-- One prefecture row of `loadPrefectureDataTable` (main.js:319-324): the
payload entry for the prefecture is looked up with `find(...)?.data`; when
the prefecture is missing, the subsequent `prefectureData.find` dereferences
`undefined` and throws, modelled as `none`. -/
def prefectureRow (cd : CountryData) (pref : String) : Option (List (String × String)) :=
  ((cd.prefectures.find? (fun e => e.prefecture = pref)).map (·.data)).map prefectureCells

/-- Fail-fast build of the rows for a list of prefecture keys: the JS
`forEach` throws at the first missing prefecture, so no table is produced
when any row fails. -/
def buildRows (cd : CountryData) : List String → Option (List (String × List (String × String)))
  | [] => some []
  | pref :: rest =>
    match prefectureRow cd pref, buildRows cd rest with
    | some cells, some rows => some ((pref, cells) :: rows)
    | _, _ => none

/-- `loadPrefectureDataTable` (main.js:316-326): one row per registry
prefecture, each holding one cell per registry fuel type.  Only the
`prefectures` field of the payload is read; the `country` aggregate is never
consulted. -/
def loadPrefectureDataTable (cd : CountryData) :
    Option (List (String × List (String × String))) :=
  buildRows cd prefectureKeys

/-- Cell lookup in a built prefecture table, by prefecture key and fuel-type
key. -/
def tableCell (t : List (String × List (String × String))) (pref ft : String) : Option String :=
  (t.find? (fun r => r.1 = pref)).bind (fun r => (r.2.find? (fun c => c.1 = ft)).map (·.2))

/-- A series with every observation whose fuel type is outside the registry
removed; used to state that unknown fuel types are silently ignored. -/
def dropUnknown (d : List DataRow) : List DataRow :=
  d.map (fun row => { row with data := row.data.filter (fun e => e.fuel_type ∈ fuelTypeKeys) })

/-- The display invariant of the selector state: a disabled registry checkbox
is unchecked. -/
def selInvariant (sel : String → SelState) : Prop :=
  ∀ ft ∈ fuelTypeKeys, (sel ft).disabled = true → (sel ft).checked = false

/-! ## Helper lemmas -/

theorem find?_isSome_iff_any (l : List α) (p : α → Bool) : (l.find? p).isSome = l.any p := by
  induction l with
  | nil => rfl
  | cons a l ih =>
    cases h : p a <;> simp [List.find?_cons, h, ih]

theorem find?_filter_of_imp (l : List α) (p q : α → Bool)
    (h : ∀ x, p x = true → q x = true) : (l.filter q).find? p = l.find? p := by
  induction l with
  | nil => rfl
  | cons a l ih =>
    cases hp : p a
    · cases hq : q a <;> simp [List.filter_cons, hq, List.find?_cons, hp, ih]
    · have hq := h a hp
      simp [List.filter_cons, hq, List.find?_cons, hp]

theorem any_filter_of_imp (l : List α) (p q : α → Bool)
    (h : ∀ x, p x = true → q x = true) : (l.filter q).any p = l.any p := by
  induction l with
  | nil => rfl
  | cons a l ih =>
    cases hp : p a
    · cases hq : q a <;> simp [List.filter_cons, hq, hp, ih]
    · have hq := h a hp
      simp [List.filter_cons, hq, hp]

theorem buildRows_isSome (cd : CountryData) (keys : List String) :
    (buildRows cd keys).isSome = true ↔
      ∀ pref ∈ keys, cd.prefectures.any (fun e => e.prefecture = pref) = true := by
  induction keys with
  | nil => simp [buildRows]
  | cons pref rest ih =>
    constructor
    · intro h
      cases hrow : prefectureRow cd pref with
      | none => simp [buildRows, hrow] at h
      | some cells =>
        cases hrest : buildRows cd rest with
        | none => simp [buildRows, hrow, hrest] at h
        | some rows =>
          intro q hq
          rcases List.mem_cons.mp hq with rfl | hq
          · have : ((cd.prefectures.find? (fun e => e.prefecture = q)).map (·.data)).isSome
                = true := by
              cases hf : cd.prefectures.find? (fun e => e.prefecture = q) with
              | none => simp [prefectureRow, hf] at hrow
              | some _ => simp [hf]
            rw [← find?_isSome_iff_any]
            cases hf : cd.prefectures.find? (fun e => e.prefecture = q) with
            | none => rw [hf] at this; simp at this
            | some _ => rfl
          · exact (ih.mp (by simp [hrest])) q hq
    · intro h
      have hhead := h pref (List.mem_cons_self pref rest)
      rw [← find?_isSome_iff_any] at hhead
      cases hf : cd.prefectures.find? (fun e => e.prefecture = pref) with
      | none => rw [hf] at hhead; simp at hhead
      | some entry =>
        have hrest : (buildRows cd rest).isSome = true :=
          ih.mpr (fun q hq => h q (List.mem_cons_of_mem _ hq))
        cases hb : buildRows cd rest with
        | none => rw [hb] at hrest; simp at hrest
        | some rows => simp [buildRows, prefectureRow, hf, hb]

theorem map_congr_mem (l : List α) (f g : α → β) (h : ∀ x ∈ l, f x = g x) :
    l.map f = l.map g := by
  induction l with
  | nil => rfl
  | cons a l ih =>
    simp only [List.map_cons, h a (List.mem_cons_self a l)]
    rw [ih (fun x hx => h x (List.mem_cons_of_mem a hx))]

theorem any_congr_mem (l : List α) (f g : α → Bool) (h : ∀ x ∈ l, f x = g x) :
    l.any f = l.any g := by
  induction l with
  | nil => rfl
  | cons a l ih =>
    simp only [List.any_cons, h a (List.mem_cons_self a l)]
    rw [ih (fun x hx => h x (List.mem_cons_of_mem a hx))]

theorem isSome_map_opt (f : α → β) (o : Option α) : (o.map f).isSome = o.isSome := by
  cases o <;> rfl

theorem alignedColumn_any_isSome (d : List DataRow) (ft : String) :
    (alignedColumn d ft).any (fun v => v.isSome) = seriesHasFuelType d ft := by
  induction d with
  | nil => rfl
  | cons row d ih =>
    show (((row.data.find? (fun e => e.fuel_type = ft)).map (·.price)).isSome
        || (alignedColumn d ft).any (fun v => v.isSome))
      = (row.data.any (fun e => e.fuel_type = ft) || seriesHasFuelType d ft)
    rw [ih, isSome_map_opt, find?_isSome_iff_any]

theorem find?_eq_none_of_any_false (l : List α) (p : α → Bool) (h : l.any p = false) :
    l.find? p = none := by
  have hs := find?_isSome_iff_any l p
  rw [h] at hs
  cases hf : l.find? p with
  | none => rfl
  | some a => rw [hf] at hs; simp at hs

/-! ## Claims about the evolution calculator -/

/-- Claim C1: for present prices with positive current value (prices are
positive by the data-model invariant), the evolution computation returns
percent `(current - previous) / current` — normalised by the current value —
with direction `up` when the percent is positive, `down` when negative and
`flat` when zero; in particular evolution of equal values is `flat` with
percent 0. -/
theorem c1_evolution_formula (v p : ℚ) (hv : 0 < v) (hp : 0 < p) :
    evolutionPercent (some v) (some p) = some ((v - p) / v) ∧
    (evolutionDirection (some v) (some p) = Direction.up ↔ 0 < (v - p) / v) ∧
    (evolutionDirection (some v) (some p) = Direction.down ↔ (v - p) / v < 0) ∧
    (evolutionDirection (some v) (some p) = Direction.flat ↔ (v - p) / v = 0) ∧
    evolutionDirection (some v) (some v) = Direction.flat ∧
    evolutionPercent (some v) (some v) = some 0 := by
  have hvne : v ≠ 0 := ne_of_gt hv
  have hpne : p ≠ 0 := ne_of_gt hp
  have hcond : v ≠ 0 ∧ p ≠ 0 := ⟨hvne, hpne⟩
  have heq : evolutionDirection (some v) (some p) =
      if 0 < (v - p) / v then Direction.up
      else if (v - p) / v < 0 then Direction.down else Direction.flat := by
    simp only [evolutionDirection, if_pos hcond]
  refine ⟨by simp [evolutionPercent, hcond], ?_, ?_, ?_, ?_, ?_⟩
  · rw [heq]
    split_ifs with h1 h2 <;> constructor <;> intro hh <;>
      first
        | rfl
        | linarith
        | exact absurd hh (by simp)
  · rw [heq]
    split_ifs with h1 h2 <;> constructor <;> intro hh <;>
      first
        | rfl
        | linarith
        | exact absurd hh (by simp)
  · rw [heq]
    split_ifs with h1 h2 <;> constructor <;> intro hh <;>
      first
        | rfl
        | linarith
        | exact absurd hh (by simp)
  · simp [evolutionDirection, hvne, sub_self, zero_div]
  · simp [evolutionPercent, hvne, sub_self, zero_div]

/-- Witness for C1 at current 2, previous 1. -/
theorem c1_evolution_formula_witness :
    (0 : ℚ) < 2 ∧ (0 : ℚ) < 1 ∧
      evolutionPercent (some (2 : ℚ)) (some 1) = some ((2 - 1) / 2) :=
  ⟨by norm_num, by norm_num,
    (c1_evolution_formula 2 1 (by norm_num) (by norm_num)).1⟩

/-- Claim C6: when either side of the evolution computation is absent, or the
current value is zero, the result is unknown with an absent percent — the
guarded branch performs no division — and the unknown result renders as the
literal dash. -/
theorem c6_unknown_on_absent_or_zero (x y : Option ℚ)
    (h : x = none ∨ y = none ∨ x = some 0) :
    evolutionDirection x y = Direction.unknown ∧ evolutionPercent x y = none ∧
      formatEvolution x y = { classes := [], innerHTML := "-" } := by
  rcases h with rfl | rfl | rfl
  · cases y <;> simp [evolutionDirection, evolutionPercent, formatEvolution]
  · cases x <;> simp [evolutionDirection, evolutionPercent, formatEvolution]
  · cases y <;> simp [evolutionDirection, evolutionPercent, formatEvolution]

/-- Witness for C6 at an absent current value. -/
theorem c6_unknown_on_absent_or_zero_witness :
    evolutionDirection (none : Option ℚ) (some 1) = Direction.unknown ∧
      evolutionPercent (none : Option ℚ) (some 1) = none ∧
      formatEvolution (none : Option ℚ) (some 1) = { classes := [], innerHTML := "-" } :=
  c6_unknown_on_absent_or_zero none (some 1) (Or.inl rfl)

/-- Claim C9: a present evolution result is rendered with a leading plus sign
exactly when the percent is positive, rounded to two decimal digits by
`toFixed(2)`, and suffixed with a percent sign; in particular current 1.750
against previous 1.700 renders as `+2.86%` with direction up. -/
theorem c9_percent_rendering (v p : ℚ) (hv : v ≠ 0) (hp : p ≠ 0) :
    (formatEvolution (some v) (some p)).innerHTML =
      (if 0 < (v - p) / v then "+" else "") ++ toFixed2 ((v - p) / v * 100) ++ "%" ∧
    formatEvolution (some 1.750) (some 1.700) =
      { classes := ["text-danger"], innerHTML := "+2.86%" } ∧
    evolutionDirection (some 1.750) (some 1.700) = Direction.up := by
  have hcond : (1.750 : ℚ) ≠ 0 ∧ (1.700 : ℚ) ≠ 0 := by norm_num
  have hev : ((1.750 : ℚ) - 1.700) / 1.750 = 1 / 35 := by norm_num
  have hpos : (0 : ℚ) < 1 / 35 := by norm_num
  have h100 : ((1 : ℚ) / 35) * 100 = 20 / 7 := by norm_num
  have hround : round (((20 : ℚ) / 7) * 100) = 286 := by
    rw [show ((20 : ℚ) / 7) * 100 = 2000 / 7 by norm_num, round_eq]
    norm_num
  refine ⟨?_, ?_, ?_⟩
  · simp [formatEvolution, hv, hp, gt_iff_lt]
  · simp only [formatEvolution, if_pos hcond, hev, h100, if_pos hpos, gt_iff_lt]
    simp only [toFixed2, hround]
    rfl
  · simp only [evolutionDirection, if_pos hcond, hev, if_pos hpos, gt_iff_lt]

/-- Witness for C9 at current 1.750, previous 1.700. -/
theorem c9_percent_rendering_witness :
    (1.750 : ℚ) ≠ 0 ∧
      formatEvolution (some 1.750) (some 1.700) =
        { classes := ["text-danger"], innerHTML := "+2.86%" } :=
  ⟨by norm_num, (c9_percent_rendering 1.750 1.700 (by norm_num) (by norm_num)).2.1⟩

/-! ## Claims about the series aligner -/

/-- Claim C5: the aligned chart output keeps the input's date axis (same
length and order), every per-fuel-type value column has that same length, and
a column entry is present exactly when the record at that index carries an
observation for the fuel type. -/
theorem c5_alignment_invariants (d : List DataRow) (sel : String → SelState) :
    (loadDailyCountryDataChart d sel).labels = d.map (·.date) ∧
    (loadDailyCountryDataChart d sel).labels.length = d.length ∧
    (∀ ds ∈ (loadDailyCountryDataChart d sel).datasets, ds.dataSeq.length = d.length) ∧
    (∀ ds ∈ (loadDailyCountryDataChart d sel).datasets,
      ∃ p ∈ FuelType, ds.dataSeq = alignedColumn d p.1) ∧
    (∀ ft : String, (alignedColumn d ft).length = d.length) ∧
    (∀ ft : String, ∀ i : ℕ, ∀ row, d[i]? = some row →
      (alignedColumn d ft)[i]? =
        some ((row.data.find? (fun e => e.fuel_type = ft)).map (·.price)) ∧
      ((row.data.find? (fun e => e.fuel_type = ft)).map (·.price)).isSome =
        row.data.any (fun e => e.fuel_type = ft)) := by
  refine ⟨rfl, by simp [loadDailyCountryDataChart], ?_, ?_, ?_, ?_⟩
  · intro ds hds
    simp only [loadDailyCountryDataChart, List.mem_map] at hds
    obtain ⟨p, hp, rfl⟩ := hds
    simp [alignedColumn]
  · intro ds hds
    simp only [loadDailyCountryDataChart, List.mem_map] at hds
    obtain ⟨p, hp, rfl⟩ := hds
    exact ⟨p, hp, rfl⟩
  · intro ft
    simp [alignedColumn]
  · intro ft i row hrow
    constructor
    · unfold alignedColumn
      rw [List.getElem?_map, hrow]
      rfl
    · rw [isSome_map_opt, find?_isSome_iff_any]

/-- Witness for C5: presence of the DIESEL observation at index 0 of a
one-record series. -/
theorem c5_alignment_invariants_witness :
    ([⟨"2024-01-01", [⟨"DIESEL", 2⟩]⟩] : List DataRow)[0]? =
        some ⟨"2024-01-01", [⟨"DIESEL", 2⟩]⟩ ∧
      (alignedColumn [⟨"2024-01-01", [⟨"DIESEL", 2⟩]⟩] "DIESEL")[0]? =
        some ((([⟨"DIESEL", 2⟩] : List Obs).find?
          (fun e => e.fuel_type = "DIESEL")).map (·.price)) :=
  ⟨rfl,
    ((c5_alignment_invariants [⟨"2024-01-01", [⟨"DIESEL", 2⟩]⟩] initFuelTypeSelector).2.2.2.2.2
      "DIESEL" 0 ⟨"2024-01-01", [⟨"DIESEL", 2⟩]⟩ rfl).1⟩

/-- Claim C7 (amended): aligning the empty series succeeds and yields an
empty date axis and an empty value column for every fuel type, but the
latest-prices table load does not tolerate the empty series: it dereferences
the missing last record and fails. -/
theorem c7_empty_series (sel : String → SelState) :
    (loadDailyCountryDataChart [] sel).labels = [] ∧
    (∀ ds ∈ (loadDailyCountryDataChart [] sel).datasets, ds.dataSeq = []) ∧
    (∀ ft : String, alignedColumn [] ft = []) ∧
    loadLatestCountryDataTable [] = none := by
  refine ⟨rfl, ?_, fun ft => rfl, rfl⟩
  intro ds hds
  simp only [loadDailyCountryDataChart, List.mem_map] at hds
  obtain ⟨p, hp, rfl⟩ := hds
  rfl

/-- Witness for C7 at the DIESEL column. -/
theorem c7_empty_series_witness : alignedColumn [] "DIESEL" = [] :=
  (c7_empty_series initFuelTypeSelector).2.2.1 "DIESEL"

/-- Counterexample for C7 as stated: the load pipeline does not tolerate the
empty series — `loadLatestCountryDataTable` reads `at(-1).data` without a
guard and fails (models the `TypeError` thrown on an empty payload). -/
theorem c7_counterexample : loadLatestCountryDataTable [] = none := rfl

/-! ## Claims about unknown fuel types -/

/-- A one-record series carrying an observation for the unregistered fuel
type KEROSENE next to a DIESEL observation. -/
def kerosSeries : List DataRow :=
  [⟨"2024-01-01", [⟨"KEROSENE", 2⟩, ⟨"DIESEL", 2⟩]⟩]

/-- The same series with the KEROSENE observation removed. -/
def kerosFree : List DataRow := [⟨"2024-01-01", [⟨"DIESEL", 2⟩]⟩]

/-- Claim C2 (amended): observations whose fuel-type identifier is outside
the registry are silently ignored, never rejected — the alignment (which is
total, it has no failure path) and the selector load of a series equal those
of the series with all unregistered observations removed. -/
theorem c2_unknown_silently_dropped (d : List DataRow) (sel : String → SelState) (ft : String) :
    loadDailyCountryDataChart (dropUnknown d) sel = loadDailyCountryDataChart d sel ∧
    loadFuelTypesSelector (dropUnknown d) sel ft = loadFuelTypesSelector d sel ft := by
  have hcol : ∀ g ∈ fuelTypeKeys, alignedColumn (dropUnknown d) g = alignedColumn d g := by
    intro g hg
    unfold alignedColumn dropUnknown
    rw [List.map_map]
    apply map_congr_mem
    intro row _
    show ((row.data.filter _).find? _).map _ = _
    rw [find?_filter_of_imp]
    intro e he
    have heq : e.fuel_type = g := of_decide_eq_true he
    rw [heq]
    exact decide_eq_true hg
  have hhas : ∀ g ∈ fuelTypeKeys, seriesHasFuelType (dropUnknown d) g = seriesHasFuelType d g := by
    intro g hg
    rw [← alignedColumn_any_isSome, ← alignedColumn_any_isSome, hcol g hg]
  constructor
  · unfold loadDailyCountryDataChart
    congr 1
    · unfold dropUnknown
      rw [List.map_map]
      apply map_congr_mem
      intro row _
      rfl
    · apply map_congr_mem
      intro p hp
      have hmem : p.1 ∈ fuelTypeKeys := List.mem_map_of_mem _ hp
      rw [hcol p.1 hmem]
  · unfold loadFuelTypesSelector
    by_cases hft : ft ∈ fuelTypeKeys
    · rw [if_pos hft, if_pos hft, hhas ft hft]
    · rw [if_neg hft, if_neg hft]

/-- Witness for C2 at the KEROSENE-carrying series and the DIESEL key. -/
theorem c2_unknown_silently_dropped_witness :
    loadDailyCountryDataChart (dropUnknown kerosSeries) initFuelTypeSelector =
        loadDailyCountryDataChart kerosSeries initFuelTypeSelector :=
  (c2_unknown_silently_dropped kerosSeries initFuelTypeSelector "DIESEL").1

/-- Counterexample for C2 as stated: a series with a KEROSENE observation
(not in the registry) is not rejected — the alignment succeeds and produces
exactly the chart data of the series without that observation, i.e. the
observation is silently dropped, and no `UnknownFuelType` failure exists. -/
theorem c2_counterexample :
    seriesHasFuelType kerosSeries "KEROSENE" = true ∧
    ("KEROSENE" ∉ fuelTypeKeys) ∧
    loadDailyCountryDataChart kerosSeries initFuelTypeSelector =
      loadDailyCountryDataChart kerosFree initFuelTypeSelector := by
  refine ⟨by decide, by decide, ?_⟩
  rfl

/-! ## Claims about the visibility state -/

/-- A one-record series carrying only a DIESEL observation. -/
def dieselSeries : List DataRow := [⟨"2024-01-01", [⟨"DIESEL", 2⟩]⟩]

/-- Claim C4: after a load, a registry fuel type is enabled exactly when its
aligned value column has a present entry; a disabled checkbox is unchecked;
toggling a disabled fuel type leaves the whole state unchanged; and the
invariant (disabled implies unchecked) is preserved by every load and every
toggle. -/
theorem c4_visibility_state (d : List DataRow) (sel : String → SelState) :
    (∀ ft ∈ fuelTypeKeys,
      ((loadFuelTypesSelector d sel ft).disabled = false ↔
        (alignedColumn d ft).any (fun v => v.isSome) = true)) ∧
    selInvariant (loadFuelTypesSelector d sel) ∧
    (∀ sel2 : String → SelState, ∀ ft : String, (sel2 ft).disabled = true →
      ∀ g, toggleFuelType sel2 ft g = sel2 g) ∧
    (∀ sel2 : String → SelState, ∀ ft : String,
      selInvariant sel2 → selInvariant (toggleFuelType sel2 ft)) := by
  refine ⟨?_, ?_, ?_, ?_⟩
  · intro ft hft
    rw [alignedColumn_any_isSome]
    unfold loadFuelTypesSelector
    rw [if_pos hft]
    cases h : seriesHasFuelType d ft <;> simp [h]
  · intro ft hft hdis
    unfold loadFuelTypesSelector at hdis ⊢
    rw [if_pos hft] at hdis ⊢
    cases h : seriesHasFuelType d ft
    · simp only [h, Bool.false_eq_true, if_false]
    · simp [h] at hdis
  · intro sel2 ft hdis g
    unfold toggleFuelType
    rw [if_neg]
    rintro ⟨rfl, hfalse⟩
    rw [hfalse] at hdis
    exact Bool.false_ne_true hdis
  · intro sel2 ft hinv g hg hdis
    unfold toggleFuelType at hdis ⊢
    by_cases hc : g = ft ∧ (sel2 ft).disabled = false
    · rw [if_pos hc] at hdis
      exfalso
      rcases hc with ⟨rfl, hfalse⟩
      have h2 : (sel2 g).disabled = true := hdis
      rw [hfalse] at h2
      exact Bool.false_ne_true h2
    · rw [if_neg hc] at hdis ⊢
      exact hinv g hg hdis

/-- Witness for C4 at a DIESEL-carrying series and the DIESEL key. -/
theorem c4_visibility_state_witness :
    ("DIESEL" ∈ fuelTypeKeys) ∧
      ((loadFuelTypesSelector dieselSeries initFuelTypeSelector "DIESEL").disabled = false ↔
        (alignedColumn dieselSeries "DIESEL").any (fun v => v.isSome) = true) :=
  ⟨by decide, (c4_visibility_state dieselSeries initFuelTypeSelector).1 "DIESEL" (by decide)⟩

/-- A one-record series carrying only a GAS observation (no DIESEL). -/
def gasSeries : List DataRow := [⟨"2024-01-02", [⟨"GAS", 2⟩]⟩]

/-- Claim C8 (amended): across a load that leaves a fuel type enabled, its
selection keeps the value it had immediately before that load, and the value
set at selector creation is the registry default; but a load that disables a
fuel type resets its selection to false, and a later load that re-enables it
leaves the selection false — the user's prior preference is not restored
across a disabled window. -/
theorem c8_selection_persistence (d d1 d2 : List DataRow) (sel : String → SelState)
    (ft : String) (hft : ft ∈ fuelTypeKeys) :
    (seriesHasFuelType d ft = true →
      (loadFuelTypesSelector d sel ft).checked = (sel ft).checked) ∧
    (∀ p, FuelType.find? (fun q => q.1 = ft) = some p →
      (initFuelTypeSelector ft).checked = !p.2.defaultUnselected) ∧
    (seriesHasFuelType d1 ft = false → seriesHasFuelType d2 ft = true →
      (loadFuelTypesSelector d2 (loadFuelTypesSelector d1 sel) ft).checked = false) := by
  refine ⟨?_, ?_, ?_⟩
  · intro h
    unfold loadFuelTypesSelector
    rw [if_pos hft]
    simp [h]
  · intro p hp
    unfold initFuelTypeSelector
    rw [hp]
  · intro h1 h2
    unfold loadFuelTypesSelector
    rw [if_pos hft, if_pos hft]
    simp [h1, h2]

/-- Witness for C8: a load of a DIESEL-carrying series keeps the default
DIESEL selection. -/
theorem c8_selection_persistence_witness :
    seriesHasFuelType dieselSeries "DIESEL" = true ∧
      (loadFuelTypesSelector dieselSeries initFuelTypeSelector "DIESEL").checked =
        (initFuelTypeSelector "DIESEL").checked :=
  ⟨by decide,
    (c8_selection_persistence dieselSeries gasSeries dieselSeries initFuelTypeSelector
      "DIESEL" (by decide)).1 (by decide)⟩

/-- Counterexample for C8 as stated: DIESEL starts selected by registry
default; a window without DIESEL disables it and clears the selection; the
next window re-enables DIESEL but the selection stays false, not the prior
preference — whereas loading that window directly would have kept it true. -/
theorem c8_counterexample :
    initFuelTypeSelector "DIESEL" = { disabled := false, checked := true } ∧
    loadFuelTypesSelector dieselSeries (loadFuelTypesSelector gasSeries initFuelTypeSelector)
        "DIESEL" = { disabled := false, checked := false } ∧
    loadFuelTypesSelector dieselSeries initFuelTypeSelector "DIESEL" =
      { disabled := false, checked := true } := by
  refine ⟨by decide, by decide, by decide⟩

/-! ## Claims about the per-prefecture table -/

/-- A country payload whose country-level aggregate has DIESEL and GAS only,
while the ATTICA region additionally reports SUPER; every registry prefecture
is present so the table build succeeds. -/
def c3Payload : CountryData :=
  { country := [⟨"DIESEL", 2⟩, ⟨"GAS", 2⟩],
    prefectures := Prefecture.map (fun pr =>
      { prefecture := pr.1,
        data := if pr.1 = "ATTICA" then [⟨"DIESEL", 3/2⟩, ⟨"SUPER", 3/2⟩] else [] }) }

/-- Claim C3 (amended): the per-prefecture table always has one data column
per registry fuel type, in registry order, regardless of the country-level
aggregate — which the builder never reads — so a fuel type reported by a
region fills its cell even when absent from the country aggregate; a region
missing a fuel type gets the absent marker (a dash), never zero. -/
theorem c3_region_table_columns (cd : CountryData) (c2 : List Obs) :
    loadPrefectureDataTable { cd with country := c2 } = loadPrefectureDataTable cd ∧
    (∀ pd : List Obs, (prefectureCells pd).map (·.1) = fuelTypeKeys) ∧
    (∀ pd : List Obs, ∀ p ∈ FuelType, pd.any (fun e => e.fuel_type = p.1) = false →
      (p.1, "-") ∈ prefectureCells pd) := by
  refine ⟨rfl, ?_, ?_⟩
  · intro pd
    unfold prefectureCells
    rw [List.map_map]
    rfl
  · intro pd p hp hnone
    have hfind : pd.find? (fun e => e.fuel_type = p.1) = none :=
      find?_eq_none_of_any_false _ _ hnone
    have hdash : formatPrice ((pd.find? (fun e => e.fuel_type = p.1)).map (·.price)) = "-" := by
      rw [hfind]
      rfl
    unfold prefectureCells
    rw [← hdash]
    exact List.mem_map_of_mem _ hp

/-- Witness for C3: the SUPER-free region data of the payload yields a dash
cell for SUPER. -/
theorem c3_region_table_columns_witness :
    (([] : List Obs).any (fun e => e.fuel_type = "SUPER") = false) ∧
      ("SUPER", "-") ∈ prefectureCells [] :=
  ⟨by decide,
    (c3_region_table_columns c3Payload [] ).2.2 [] ("SUPER",
      { label := "Super", borderColor := "rgb(202, 202, 202)", defaultUnselected := true })
      (by decide) (by decide)⟩

/-- Counterexample for C3 as stated: with a country aggregate of DIESEL and
GAS only, the built table still shows ATTICA's SUPER price — the column set
is not restricted to the country aggregate and the region's SUPER value is
not dropped. -/
theorem c3_counterexample :
    c3Payload.country.any (fun e => e.fuel_type = "SUPER") = false ∧
    (loadPrefectureDataTable c3Payload).map (fun t => tableCell t "ATTICA" "SUPER") =
      some (some "1.500€") := by
  constructor
  · decide
  · have h32 : ((3 : ℚ) / 2) ≠ 0 := by norm_num
    have hr : round (((3 : ℚ) / 2) * 1000) = 1500 := by
      rw [show ((3 : ℚ) / 2) * 1000 = 1500 by norm_num, round_eq]
      norm_num
    have hfp : formatPrice (some ((3 : ℚ) / 2)) = "1.500€" := by
      simp only [formatPrice, if_pos h32]
      simp only [toFixed3, hr]
      rfl
    rw [← hfp]
    rfl

/-- A country payload containing every registry prefecture, each with an
empty observation list. -/
def fullPayload : CountryData :=
  { country := [],
    prefectures := Prefecture.map (fun pr => { prefecture := pr.1, data := [] }) }

/-- Claim C10: building the per-prefecture table succeeds exactly when every
registry prefecture appears in the payload; a payload omitting any registry
prefecture makes the build fail (the JS dereferences the missing entry's
`data` and throws) instead of producing a blank row. -/
theorem c10_missing_region_fails (cd : CountryData) :
    (loadPrefectureDataTable cd).isSome = true ↔
      ∀ pref ∈ prefectureKeys, cd.prefectures.any (fun e => e.prefecture = pref) = true :=
  buildRows_isSome cd prefectureKeys

/-- Witness for C10: the build succeeds on a payload listing every registry
prefecture, and fails on the payload missing all of them. -/
theorem c10_missing_region_fails_witness :
    (loadPrefectureDataTable fullPayload).isSome = true ∧
      (loadPrefectureDataTable { country := [], prefectures := [] }).isSome = false :=
  ⟨(c10_missing_region_fails fullPayload).mpr (by decide), by decide⟩

end FuelPrices
